import Mathlib

/-!
Verification development for the Chipper RAG chat stack.

Each definition below is a shallow embedding of a function of the
repository (file and line references in the doc comments).  Python
machine-level details are modelled as follows: environment access is a
finite partial map `String → Option String`; Python `None` is `Option.none`;
Python exceptions are `Except`/`Option` results; `int(...)`/`float(...)`
conversion failure (ValueError/TypeError) is `Option.none`; floating-point
values are never computed on, so float-typed parameters carry the raw
environment string whose conversion succeeded.
-/

set_option maxHeartbeats 1000000

/-- Process environment: a partial map from variable names to values,
modelling Python `os.getenv`. -/
abbrev Env := String → Option String

/-- The environment with no variables set. -/
def emptyEnv : Env := fun _ => none

/-- Python truthiness of an optional string: `None` and `""` are falsy. -/
def pyTruthy (o : Option String) : Bool :=
  match o with
  | none => false
  | some s => s ≠ ""

/-- Python `a or b` on optional strings: the left operand wins when it is
truthy (not `None` and not empty), otherwise the right operand is used. -/
def pyOrS (a b : Option String) : Option String :=
  match a with
  | none => b
  | some s => if s = "" then b else some s

/-- Digit list to natural number. -/
def digitsToNat (l : List Char) : Nat :=
  l.foldl (fun a c => a * 10 + (c.toNat - 48)) 0

/-- Strip leading and trailing whitespace of a character list (Python
`str.strip()` as applied to ASCII text). -/
def trimChars (cs : List Char) : List Char :=
  ((cs.dropWhile Char.isWhitespace).reverse.dropWhile Char.isWhitespace).reverse

/-- ASCII lowercase of one character (Python `str.lower()` restricted to
the ASCII range, which is all the comparisons in the source need). -/
def lowerChar (c : Char) : Char :=
  if 'A' ≤ c ∧ c ≤ 'Z' then Char.ofNat (c.toNat + 32) else c

/-- Python `s.lower()` on ASCII text. -/
def pyLower (s : String) : String :=
  String.mk (s.toList.map lowerChar)

/-- Model of Python `int(s)` on strings: surrounding whitespace is ignored,
an optional single sign is allowed, and the remainder must be one or more
decimal digits; anything else raises ValueError, modelled as `none`.
(Digit-group underscores, accepted by CPython, are not modelled; no claim
depends on them.) -/
def pyInt? (s : String) : Option Int :=
  let cs := trimChars s.toList
  let signDigits : Bool × List Char :=
    match cs with
    | c :: rest => if c = '-' then (true, rest) else if c = '+' then (false, rest) else (false, cs)
    | [] => (false, [])
  let neg := signDigits.1
  let digits := signDigits.2
  if digits ≠ [] ∧ digits.all Char.isDigit then
    let n : Int := Int.ofNat (digitsToNat digits)
    some (if neg then -n else n)
  else none

/-- Mantissa-and-exponent part of the Python float grammar (after sign
removal and lowercasing): `digits [. digits] | . digits`, then an optional
`e [sign] digits` exponent. -/
def floatBodyOk (cs : List Char) : Bool :=
  let ipSplit := cs.span Char.isDigit
  let ip := ipSplit.1
  let r1 := ipSplit.2
  let afterDot : List Char × List Char :=
    match r1 with
    | '.' :: rest =>
      let fs := rest.span Char.isDigit
      (fs.1, fs.2)
    | _ => ([], r1)
  let fp := afterDot.1
  let r2 := afterDot.2
  if ip.isEmpty ∧ fp.isEmpty ∧ ¬(r1.head? = some '.') then false
  else if ip.isEmpty ∧ fp.isEmpty then false
  else
    match r2 with
    | [] => true
    | 'e' :: rest =>
      let rest2 : List Char :=
        match rest with
        | c :: t => if c = '+' ∨ c = '-' then t else rest
        | [] => []
      ¬rest2.isEmpty ∧ rest2.all Char.isDigit
    | _ => false

/-- Model of Python `float(s)` succeeding: surrounding whitespace ignored,
optional sign, then `inf`/`infinity`/`nan` (case-insensitive) or a decimal
mantissa with optional exponent. -/
def pyFloatOk (s : String) : Bool :=
  let cs := (trimChars s.toList).map lowerChar
  let body : List Char :=
    match cs with
    | c :: rest => if c = '+' ∨ c = '-' then rest else cs
    | [] => []
  if body = "inf".toList ∨ body = "infinity".toList ∨ body = "nan".toList then true
  else floatBodyOk body

/-- Embedding of get_env_param (src/services/api/src/main.py:113-125 and
src/services/api/src/api/pipeline_config.py:30-42; the two copies are
identical).  The Python converter is modelled as `String → Option A`, with
`none` standing for a raised ValueError/TypeError, which the source catches
and turns into `None`.  The source's `converter is None` branch returns the
raw value unchanged; it corresponds to `conv = some` with `default = none`
and is exercised by no claim. -/
def get_env_param {A : Type} (env : Env) (name : String) (conv : String → Option A)
    (default : Option String) : Option A :=
  match env name with
  | none => none
  | some v =>
    match default with
    | some d => if v = "" then conv d else conv v
    | none => conv v

/-- get_env_param specialised to the `int` converter, as used throughout
create_pipeline_config. -/
def getEnvInt (env : Env) (name : String) (default : Option String) : Option Int :=
  get_env_param env name pyInt? default

/-- get_env_param specialised to the `float` converter.  The successfully
converted value is represented by the raw string it was parsed from. -/
def getEnvFlt (env : Env) (name : String) (default : Option String) : Option String :=
  get_env_param env name (fun s => if pyFloatOk s then some s else none) default

/-- Model provider enumeration (core.pipeline_config.ModelProvider; the
enum itself is imported by src/services/api/src/main.py:12). -/
inductive ModelProvider
  | ollama
  | huggingface
deriving DecidableEq, Repr

/-- Values stored in the config_params dictionary of create_pipeline_config.
Float-typed parameters carry the raw string whose conversion succeeded. -/
inductive ConfigVal
  | prov (p : ModelProvider)
  | str (s : String)
  | ostr (s : Option String)
  | int (n : Int)
  | flt (raw : String)
  | bool (b : Bool)
deriving DecidableEq, Repr

/-- A dictionary entry that is present only when the optional value is. -/
def optEntry (key : String) (v : Option ConfigVal) : List (String × ConfigVal) :=
  match v with
  | some x => [(key, x)]
  | none => []

/-- Dictionary lookup on the config_params association list (first match). -/
def cfgGet (cfg : List (String × ConfigVal)) (k : String) : Option ConfigVal :=
  match cfg with
  | [] => none
  | (k2, v) :: rest => if k2 = k then some v else cfgGet rest k

/-- Provider selection (src/services/api/src/main.py:129-134): huggingface
exactly when the PROVIDER variable, defaulted to "ollama", lowercases to
"hf". -/
def providerOf (env : Env) : ModelProvider :=
  if pyLower ((env "PROVIDER").getD "ollama") = "hf" then .huggingface else .ollama

/-- Base entries of config_params (src/services/api/src/main.py:136-148):
provider, provider-specific embedding model, model name (request override
first, Python `or` semantics), and the process-wide system prompt. -/
def headSegment (env : Env) (sysPrompt : String) (model : Option String) :
    List (String × ConfigVal) :=
  let provider := providerOf env
  let model_name :=
    if provider = .huggingface then pyOrS model (env "HF_MODEL_NAME")
    else pyOrS model (env "MODEL_NAME")
  let embedding_model :=
    if provider = .huggingface then env "HF_EMBEDDING_MODEL_NAME"
    else env "EMBEDDING_MODEL_NAME"
  [("provider", .prov provider),
   ("embedding_model", .ostr embedding_model),
   ("model_name", .ostr model_name),
   ("system_prompt", .str sysPrompt)]

/-- Provider-specific credential entries (src/services/api/src/main.py:150-156):
hf_api_key only for the huggingface provider and only when HF_API_KEY is
set; ollama_url only for the ollama provider and only when OLLAMA_URL is
set. -/
def credSegment (env : Env) : List (String × ConfigVal) :=
  if providerOf env = .huggingface then
    optEntry "hf_api_key" ((env "HF_API_KEY").map .str)
  else
    optEntry "ollama_url" ((env "OLLAMA_URL").map .str)

/-- Model pull flag (src/services/api/src/main.py:158-161). -/
def pullSegment (env : Env) : List (String × ConfigVal) :=
  optEntry "allow_model_pull" ((env "ALLOW_MODEL_PULL").map (fun ap => .bool (pyLower ap = "true")))

/-- Core generation and advanced sampling parameters
(src/services/api/src/main.py:163-176). -/
def coreGenSegment (env : Env) : List (String × ConfigVal) :=
  optEntry "context_window" ((getEnvInt env "CONTEXT_WINDOW" (some "8192")).map .int)
  ++ optEntry "temperature" ((getEnvFlt env "TEMPERATURE" none).map .flt)
  ++ optEntry "seed" ((getEnvInt env "SEED" none).map .int)
  ++ optEntry "top_k" ((getEnvInt env "TOP_K" none).map .int)
  ++ optEntry "top_p" ((getEnvFlt env "TOP_P" none).map .flt)
  ++ optEntry "min_p" ((getEnvFlt env "MIN_P" none).map .flt)

/-- Mirostat parameters (src/services/api/src/main.py:178-184): eta and tau
are read only inside the branch where MIROSTAT itself converted to an
int. -/
def mirostatSegment (env : Env) : List (String × ConfigVal) :=
  match getEnvInt env "MIROSTAT" none with
  | none => []
  | some m =>
    ("mirostat", .int m) ::
      (optEntry "mirostat_eta" ((getEnvFlt env "MIROSTAT_ETA" none).map .flt)
       ++ optEntry "mirostat_tau" ((getEnvFlt env "MIROSTAT_TAU" none).map .flt))

/-- Repetition control parameters (src/services/api/src/main.py:186-191). -/
def repetitionSegment (env : Env) : List (String × ConfigVal) :=
  optEntry "repeat_last_n" ((getEnvInt env "REPEAT_LAST_N" none).map .int)
  ++ optEntry "repeat_penalty" ((getEnvFlt env "REPEAT_PENALTY" none).map .flt)

/-- Generation control parameters and stop sequence
(src/services/api/src/main.py:193-201). -/
def genCtrlSegment (env : Env) : List (String × ConfigVal) :=
  optEntry "num_predict" ((getEnvInt env "NUM_PREDICT" none).map .int)
  ++ optEntry "tfs_z" ((getEnvFlt env "TFS_Z" none).map .flt)
  ++ optEntry "stop_sequence" ((env "STOP").map .str)

/-- Elasticsearch parameters (src/services/api/src/main.py:203-224): only
present when ES_URL is set; the caller-supplied index override, when not
None, takes precedence over ES_INDEX. -/
def esSegment (env : Env) (index : Option String) : List (String × ConfigVal) :=
  match env "ES_URL" with
  | none => []
  | some u =>
    ("es_url", .str u) ::
      ((match index with
        | some i => [("es_index", ConfigVal.str i)]
        | none => optEntry "es_index" ((env "ES_INDEX").map .str))
       ++ optEntry "es_top_k" ((getEnvInt env "ES_TOP_K" (some "5")).map .int)
       ++ optEntry "es_num_candidates" ((getEnvInt env "ES_NUM_CANDIDATES" (some "-1")).map .int)
       ++ optEntry "es_basic_auth_user" ((env "ES_BASIC_AUTH_USERNAME").map .str)
       ++ optEntry "es_basic_auth_password" ((env "ES_BASIC_AUTH_PASSWORD").map .str))

/-- Conversation log flag (src/services/api/src/main.py:226-228); note the
source stores the raw environment string here, not a boolean. -/
def logsSegment (env : Env) : List (String × ConfigVal) :=
  optEntry "enable_conversation_logs" ((env "ENABLE_CONVERSATION_LOGS").map .str)

/-- Embedding of create_pipeline_config (src/services/api/src/main.py:128-230),
as the config_params key/value mapping handed to the QueryPipelineConfig
constructor, in source insertion order. -/
def createPipelineConfig (env : Env) (sysPrompt : String) (model index : Option String) :
    List (String × ConfigVal) :=
  headSegment env sysPrompt model ++ credSegment env ++ pullSegment env
  ++ coreGenSegment env ++ mirostatSegment env ++ repetitionSegment env
  ++ genCtrlSegment env ++ esSegment env index ++ logsSegment env

/-- Minimal JSON value universe for the streamed frames.  Nested result
objects (the full pipeline result attached to the final frame) are
abstracted to `other` with a tag, since no emitted-frame logic inspects
them. -/
inductive JVal
  | null
  | bool (b : Bool)
  | str (s : String)
  | other (tag : Nat)
deriving DecidableEq, Repr

/-- JSON objects as key/value lists (keys unique by construction). -/
abbrev JObj := List (String × JVal)

/-- Dictionary `get` on a JSON object (first match, `None` when absent). -/
def jGet (o : JObj) (k : String) : Option JVal :=
  match o with
  | [] => none
  | (k2, v) :: rest => if k2 = k then some v else jGet rest k

/-- Python `json_data.get("done") is True`: only an actual boolean True
passes. -/
def isTrue (v : Option JVal) : Bool :=
  match v with
  | some (.bool true) => true
  | _ => false

/-- Token-chunk frame pushed by streaming_callback
(src/services/api/src/main.py:333-341). -/
def streamingChunkFrame (content : String) : JObj :=
  [("type", .str "chat_response"), ("chunk", .str content),
   ("done", .bool false), ("full_response", .null)]

/-- Model-status progress frame pushed inside run_rag
(src/services/api/src/main.py:347-356); the source appends a newline to the
message. -/
def modelStatusFrame (message : String) : JObj :=
  [("type", .str "chat_response"), ("chunk", .str (message ++ "\n")),
   ("done", .bool false), ("full_response", .null)]

/-- Final frame pushed on pipeline success
(src/services/api/src/main.py:362-368). -/
def finalFrame (result : JVal) : JObj :=
  [("type", .str "chat_response"), ("chunk", .str ""),
   ("done", .bool true), ("full_response", result)]

/-- Error frame pushed on elasticsearch.BadRequestError
(src/services/api/src/main.py:369-375); note the dict literal has no
full_response key. -/
def badRequestErrorFrame (e : String) : JObj :=
  [("type", .str "chat_response"),
   ("chunk", .str ("Error: Embedding retriever error. " ++ e ++ ".\n")),
   ("done", .bool true)]

/-- Error frame pushed on any other exception
(src/services/api/src/main.py:376-383); again no full_response key. -/
def genericErrorFrame (e : String) : JObj :=
  [("type", .str "chat_response"), ("chunk", .str ("Error: " ++ e ++ "\n")),
   ("done", .bool true)]

/-- Defensive frame emitted by the HTTP generator on a JSON decode error
(src/services/api/src/main.py:402-409). -/
def invalidJsonErrorFrame : JObj :=
  [("type", .str "error"), ("error", .str "Invalid JSON format received."),
   ("done", .bool true)]

/-- Outcome of the background pipeline run inside run_rag: success with a
result object, an elasticsearch bad-request error, or any other
exception. -/
inductive RagResult
  | ok (result : JVal)
  | badRequest (e : String)
  | error (e : String)
deriving DecidableEq, Repr

/-- Queue frames produced by one execution of run_rag
(src/services/api/src/main.py:345-383): model-status frames, then the
token-chunk frames pushed by the streaming callback during run_query, then
the single terminal frame selected by the outcome. -/
def runRagFrames (statusMsgs chunks : List String) (outcome : RagResult) : List JObj :=
  statusMsgs.map modelStatusFrame ++ chunks.map streamingChunkFrame ++
    [match outcome with
     | .ok r => finalFrame r
     | .badRequest e => badRequestErrorFrame e
     | .error e => genericErrorFrame e]

/-- Whether a frame carries all four fields of the documented frame shape. -/
def hasAllChatFields (o : JObj) : Bool :=
  (jGet o "type").isSome && (jGet o "chunk").isSome &&
    (jGet o "done").isSome && (jGet o "full_response").isSome

/-- Key list of a frame, in insertion order. -/
def frameKeys (o : JObj) : List String := o.map (fun p => p.1)

/-- One observation of the HTTP generator's queue read
(src/services/api/src/main.py:391-399): a data item that parses to the JSON
object `o`, a data item whose JSON parse fails (carrying its raw text), or
a `queue.Empty` timeout. -/
inductive QEvent
  | frame (o : JObj)
  | malformed (raw : String)
  | timeout
deriving DecidableEq, Repr

/-- Frames yielded over the SSE connection by the generator. -/
inductive OutFrame
  | data (o : JObj)
  | raw (s : String)
  | heartbeat
  | invalidJsonError
deriving DecidableEq, Repr, BEq

/-- Embedding of the generate loop of handle_streaming_response
(src/services/api/src/main.py:388-410), run over a finite prefix of queue
observations.  Returns the yielded frames and whether the loop has hit a
`break` (`true`) or is still waiting on the queue (`false`).  Per source: a
parsed item is yielded and ends the stream exactly when its "done" field
`is True`; a timeout yields one heartbeat and continues; an unparseable
item is yielded, then the invalid-JSON error frame is yielded and the
stream ends. -/
def runGenerate : List QEvent → List OutFrame × Bool
  | [] => ([], false)
  | .timeout :: rest =>
    let r := runGenerate rest
    (.heartbeat :: r.1, r.2)
  | .malformed s :: _ => ([.raw s, .invalidJsonError], true)
  | .frame o :: rest =>
    if isTrue (jGet o "done") then ([.data o], true)
    else
      let r := runGenerate rest
      (.data o :: r.1, r.2)

/-- Queue observations that make the generate loop break. -/
def isTerminalEvent : QEvent → Bool
  | .frame o => isTrue (jGet o "done")
  | .malformed _ => true
  | .timeout => false

/-- The single frame yielded by a non-terminal queue observation. -/
def openOut : QEvent → OutFrame
  | .frame o => .data o
  | .malformed s => .raw s
  | .timeout => .heartbeat

/-- The frames yielded by a terminal queue observation. -/
def termOut : QEvent → List OutFrame
  | .frame o => [.data o]
  | .malformed s => [.raw s, .invalidJsonError]
  | .timeout => []

/-- One element of the chat request's messages array, reduced to its
"content" field (`none` models a missing key). -/
structure ChatMsg where
  content : Option String
deriving DecidableEq, Repr

/-- The POST /api/chat request body (src/services/api/src/main.py:272-295),
reduced to the fields the handler reads: the messages array, the optional
model override, the optional options.index override, and the optional
stream flag (absent defaults to streaming). -/
structure ChatRequest where
  messages : List ChatMsg
  model : Option String
  optionsIndex : Option String
  stream : Option Bool
deriving DecidableEq, Repr

/-- An HTTP error raised by flask abort: status code and description. -/
structure HttpError where
  status : Nat
  description : String
deriving DecidableEq, Repr

/-- Decidable equality for Except results, so that concrete handler
outcomes can be checked by evaluation. -/
instance {e a : Type} [DecidableEq e] [DecidableEq a] : DecidableEq (Except e a) := fun x y =>
  match x, y with
  | .error u, .error v =>
    if h : u = v then .isTrue (by rw [h]) else .isFalse (fun hc => h (by injection hc))
  | .error _, .ok _ => .isFalse (fun hc => by injection hc)
  | .ok _, .error _ => .isFalse (fun hc => by injection hc)
  | .ok u, .ok v =>
    if h : u = v then .isTrue (by rw [h]) else .isFalse (fun hc => h (by injection hc))

/-- Validation prefix of the chat handler
(src/services/api/src/main.py:272-292), up to and including the two
override-permission checks, before create_pipeline_config is reached.
The `data : Option ChatRequest` argument is the parsed JSON body,
with `none` modelling a missing or falsy payload. -/
def chat_validate (allowModelChange allowIndexChange : Bool) (data : Option ChatRequest) :
    Except HttpError ChatRequest :=
  match data with
  | none => .error ⟨400, "Invalid JSON payload."⟩
  | some d =>
    if d.messages.isEmpty then .error ⟨400, "No messages provided"⟩
    else
      match d.messages.getLast? with
      | none => .error ⟨400, "Invalid message format"⟩
      | some lastMsg =>
        if pyTruthy lastMsg.content = false then .error ⟨400, "Invalid message format"⟩
        else if pyTruthy d.model && !allowModelChange then
          .error ⟨403, "Model changes are not allowed"⟩
        else if pyTruthy d.optionsIndex && !allowIndexChange then
          .error ⟨403, "Index changes are not allowed"⟩
        else .ok d

/-- Value returned by the chat route to the HTTP layer: an error response,
or a dispatch to the streaming / standard handler carrying the built
pipeline configuration, the query and the prior conversation. -/
inductive ChatResponse
  | http (status : Nat) (description : String)
  | streaming (cfg : List (String × ConfigVal)) (query : String) (conversation : List ChatMsg)
  | standard (cfg : List (String × ConfigVal)) (query : String) (conversation : List ChatMsg)
deriving DecidableEq, Repr

/-- Embedding of the chat route (src/services/api/src/main.py:268-304).
The whole body runs inside `try: ... except Exception: abort(500)`, and
werkzeug's HTTPException (raised by every `abort` in the body) is a
subclass of Exception, so each abort inside the try block is caught and
re-raised as the generic 500.  The second component counts how many times
create_pipeline_config ran (backend clients are only ever constructed from
that configuration inside the two dispatch handlers, so 0 means no backend
work began). -/
def chat (allowModelChange allowIndexChange : Bool) (env : Env) (sysPrompt : String)
    (data : Option ChatRequest) : ChatResponse × Nat :=
  match chat_validate allowModelChange allowIndexChange data with
  | .error _ => (.http 500 "Internal Server Error.", 0)
  | .ok d =>
    let query := ((d.messages.getLast?).bind (fun m => m.content)).getD ""
    let config := createPipelineConfig env sysPrompt d.model d.optionsIndex
    let conversation := if d.messages.length > 1 then d.messages.dropLast else []
    if d.stream.getD true then (.streaming config query conversation, 1)
    else (.standard config query conversation, 1)

/-- A chat request supplying a model override (used as concrete failing
input for the permission-gating claim). -/
def reqModelOverride : ChatRequest :=
  { messages := [⟨some "hi"⟩], model := some "other-model", optionsIndex := none, stream := none }

/-- A chat request supplying an index override. -/
def reqIndexOverride : ChatRequest :=
  { messages := [⟨some "hi"⟩], model := none, optionsIndex := some "docs", stream := none }

/-- Embedding of the QueryPipelineConfig dataclass fields used by the
component factory (src/services/api/src/core/pipeline_config.py:4-21).
The float-typed temperature is modelled as a rational: the factory only
moves it around, never computes on it. -/
structure QueryPipelineConfigM where
  es_url : String
  es_index : String
  ollama_url : String
  embedding_model : String
  allow_model_pull : Bool
  model_name : String
  system_prompt : String
  context_window : Int
  temperature : Rat
  seed : Int
  top_k : Int
deriving DecidableEq, Repr

/-- Values placed in the generator's generation_kwargs dictionary. -/
inductive GenVal
  | rat (q : Rat)
  | int (n : Int)
deriving DecidableEq, Repr

/-- The OllamaGenerator as constructed by the factory: constructor
arguments that the source passes explicitly. -/
structure OllamaGeneratorM where
  model : String
  url : String
  generation_kwargs : List (String × GenVal)
  timeout : Nat
deriving DecidableEq, Repr

/-- Dictionary lookup on generation_kwargs (first match). -/
def kwGet (kw : List (String × GenVal)) (k : String) : Option GenVal :=
  match kw with
  | [] => none
  | (k2, v) :: rest => if k2 = k then some v else kwGet rest k

/-- Embedding of PipelineComponentFactory.create_ollama_generator
(src/services/api/src/core/component_factory.py:42-61): kwargs always
carry temperature and context_length (from context_window); seed is added
only when nonzero; the generator is constructed with timeout 240. -/
def create_ollama_generator (config : QueryPipelineConfigM) : OllamaGeneratorM :=
  let generation_kwargs : List (String × GenVal) :=
    [("temperature", .rat config.temperature), ("context_length", .int config.context_window)]
  let generation_kwargs :=
    if config.seed ≠ 0 then generation_kwargs ++ [("seed", .int config.seed)]
    else generation_kwargs
  { model := config.model_name, url := config.ollama_url,
    generation_kwargs := generation_kwargs, timeout := 240 }

/-- A conversation record: role, content and timestamp, as appended by the
legacy query service and the web frontend. -/
structure ConvRec where
  role : String
  content : String
  timestamp : String
deriving DecidableEq, Repr

/-- Outcome of rag.run_query inside process_query: success carrying the
result's llm.replies list, or a raised exception.  (A successful pipeline
result always has the llm.replies shape: the orchestrator builds it from
the generator's output.) -/
inductive RunOutcome
  | ok (replies : List String)
  | err
deriving DecidableEq, Repr

/-- The JSON body returned by the legacy query endpoint; result is
abstracted to the replies list of the pipeline result it carries. -/
structure QueryResponse where
  success : Bool
  result : Option (List String)
  conversation : List ConvRec
  timestamp : String
deriving DecidableEq, Repr

/-- Embedding of process_query (src/services/rest-api/src/main.py:55-111).
`now` stands for datetime.now().isoformat() (the source calls it once per
field; the timestamps are modelled as equal).  `none` models the outer
`except Exception: abort(500)` path, which is reached when the success
branch indexes an empty replies list. -/
def process_query (query : String) (conversation : List ConvRec) (outcome : RunOutcome)
    (now : String) : Option QueryResponse :=
  match outcome with
  | .err => some ⟨false, none, conversation ++ [], now⟩
  | .ok replies =>
    match replies with
    | [] => none
    | r0 :: _ =>
      some ⟨true, some replies,
        conversation ++ [⟨"user", query, now⟩, ⟨"assistant", r0, now⟩], now⟩

/-- Python `l[-n:]` for a non-negative `n`: the last `n` elements — except
that `l[-0:]` is `l[0:]`, the whole list, because `-0 == 0`. -/
def pyTailSlice {α : Type} (l : List α) (n : Nat) : List α :=
  if n = 0 then l else l.drop (l.length - n)

/-- Embedding of SessionManager.update_chat_context
(src/src/web/client_web_server.py:159-168 and
src/services/web/src/main.py:87-94; identical logic): append the new
record, then trim to the last max_size entries when the length exceeds
max_size. -/
def update_chat_context (context : List ConvRec) (role content now : String)
    (maxSize : Nat) : List ConvRec :=
  let ctx := context ++ [⟨role, content, now⟩]
  if ctx.length > maxSize then pyTailSlice ctx maxSize else ctx

/-- One entry of the web frontend's command table
(src/src/web/client_web_server.py:28-47): description and optional usage
string.  The handler member of each entry is modelled by the dispatch in
`dispatch_command` below. -/
structure CmdInfo where
  description : String
  usage : Option String
deriving DecidableEq, Repr

/-- The registered command table (src/src/web/client_web_server.py:28-47):
exactly /help, /index, /model and /clear. -/
def commands : List (String × CmdInfo) :=
  [("/help", ⟨"List all available commands", none⟩),
   ("/index", ⟨"Set index name", some "/index <index_name>"⟩),
   ("/model", ⟨"Set model name", some "/model <model_name>"⟩),
   ("/clear", ⟨"Clear chat history", none⟩)]

/-- Dictionary lookup in the command table (first match). -/
def cmdGet (tbl : List (String × CmdInfo)) (k : String) : Option CmdInfo :=
  match tbl with
  | [] => none
  | (k2, v) :: rest => if k2 = k then some v else cmdGet rest k

/-- The per-session state the command handlers touch: the optional index
and model overrides and the conversation context. -/
structure WebSession where
  es_index : Option String
  model_name : Option String
  context : List ConvRec
deriving DecidableEq, Repr

/-- A raised Python exception relevant to the command path. -/
inductive PyError
  | keyError (key : String)
deriving DecidableEq, Repr

/-- The structured dictionaries a command handler returns. -/
inductive CmdResult
  | replies (rs : List String)
  | usageError (error usage : String)
  | unknownCmd (error suggestion : String)
deriving DecidableEq, Repr

/-- Embedding of CommandManager.handle_help
(src/src/web/client_web_server.py:62-72). -/
def handle_help (sess : WebSession) : Except PyError (CmdResult × WebSession) :=
  let lines :=
    "Available commands:" ::
      commands.map (fun p =>
        p.1 ++ ": " ++ p.2.description ++
          (match p.2.usage with
           | some u => "\n   Usage: " ++ u
           | none => ""))
  .ok (.replies [String.intercalate "\n" lines], sess)

/-- Embedding of CommandManager.handle_set_index
(src/src/web/client_web_server.py:74-86).  With no argument the source
evaluates `self.commands['/set_index']['usage']`; '/set_index' is not a key
of the command table, so the subscript raises KeyError before the usage
dictionary is built. -/
def handle_set_index (args : List String) (sess : WebSession) :
    Except PyError (CmdResult × WebSession) :=
  match args with
  | [] =>
    (match cmdGet commands "/set_index" with
     | none => .error (.keyError "/set_index")
     | some info =>
       match info.usage with
       | none => .error (.keyError "usage")
       | some u => .ok (.usageError "Index name is required" u, sess))
  | indexName :: _ =>
    .ok (.replies ["Thebes index set to: " ++ indexName],
      { sess with es_index := some indexName })

/-- Embedding of CommandManager.handle_set_model
(src/src/web/client_web_server.py:88-100); same unregistered
'/set_model' subscript in the no-argument branch. -/
def handle_set_model (args : List String) (sess : WebSession) :
    Except PyError (CmdResult × WebSession) :=
  match args with
  | [] =>
    (match cmdGet commands "/set_model" with
     | none => .error (.keyError "/set_model")
     | some info =>
       match info.usage with
       | none => .error (.keyError "usage")
       | some u => .ok (.usageError "Model name is required" u, sess))
  | modelName :: _ =>
    .ok (.replies ["Model name set to: " ++ modelName],
      { sess with model_name := some modelName })

/-- Embedding of CommandManager.handle_clear
(src/src/web/client_web_server.py:102-108). -/
def handle_clear (sess : WebSession) : Except PyError (CmdResult × WebSession) :=
  .ok (.replies ["Chat history cleared."], { sess with context := [] })

/-- Character-list splitter: cut at every whitespace character, keeping
empty pieces. -/
def splitWsAux : List Char → List Char → List (List Char)
  | [], acc => [acc.reverse]
  | c :: rest, acc =>
    if c.isWhitespace then acc.reverse :: splitWsAux rest []
    else splitWsAux rest (c :: acc)

/-- Python str.split() with no separator: split on whitespace runs,
dropping empty tokens. -/
def pySplit (s : String) : List String :=
  ((splitWsAux s.toList []).filter (fun t => t ≠ [])).map String.mk

/-- Dispatch through the handler members stored in the command table
(src/src/web/client_web_server.py:28-47). -/
def dispatch_command (command : String) (args : List String) (sess : WebSession) :
    Except PyError (CmdResult × WebSession) :=
  if command = "/help" then handle_help sess
  else if command = "/index" then handle_set_index args sess
  else if command = "/model" then handle_set_model args sess
  else handle_clear sess

/-- Embedding of CommandManager.handle_command
(src/src/web/client_web_server.py:49-60): `none` is the Python `None`
returned for non-command messages; command messages are split on
whitespace, the lowercased first token selects the table entry, unknown
commands return the structured unknown-command dictionary. -/
def handle_command (message : String) (sess : WebSession) :
    Option (Except PyError (CmdResult × WebSession)) :=
  if ¬(message.toList.headD ' ' = '/') then none
  else
    let parts := pySplit message
    let command := pyLower (parts.headD "")
    let args := parts.tail
    if (cmdGet commands command).isNone then
      some (.ok (.unknownCmd ("Unknown command: " ++ command)
        "Use /help to see available commands", sess))
    else some (dispatch_command command args sess)

/-- Responses of the web frontend's POST /api/chat route, tagged with their
HTTP status. -/
inductive WebChatResult
  | missingMessage                                -- 400, "Message is required"
  | commandError (error usage_or_suggestion : String)  -- 400, structured command error
  | commandOk (replies : List String)             -- 200, command response
  | ok (replies : List String)                    -- 200, normal chat response
  | backendUnavailable                            -- 503, APIError from the backend call
  | unexpected                                    -- 500, "An unexpected error occurred"
deriving DecidableEq, Repr

/-- HTTP status attached to each route outcome
(src/src/web/client_web_server.py:299-356). -/
def webChatStatus : WebChatResult → Nat
  | .missingMessage => 400
  | .commandError _ _ => 400
  | .commandOk _ => 200
  | .ok _ => 200
  | .backendUnavailable => 503
  | .unexpected => 500

/-- Embedding of the web frontend chat route
(src/src/web/client_web_server.py:299-356).  `configOk` models whether
Config() construction succeeds (it raises when WEB_API_KEY is unset);
`backend` models the APIClient.query call: `.error` is a raised APIError,
`.ok replies` the replies list extracted from the backend response.  Any
exception escaping the body — including a KeyError from a command handler —
is caught by the route's blanket `except Exception` and answered with the
generic 500 response. -/
def webChat (message : String) (sess : WebSession) (configOk : Bool)
    (backend : Except String (List String)) (maxContextSize : Nat) (now : String) :
    WebChatResult × WebSession :=
  if message = "" then (.missingMessage, sess)
  else
    match handle_command message sess with
    | some (.error _) => (.unexpected, sess)
    | some (.ok (res, sess2)) =>
      match res with
      | .replies rs => (.commandOk rs, sess2)
      | .usageError e u => (.commandError e u, sess2)
      | .unknownCmd e sug => (.commandError e sug, sess2)
    | none =>
      if ¬configOk then (.unexpected, sess)
      else
        match backend with
        | .error _ => (.backendUnavailable, sess)
        | .ok replies =>
          let ctx1 := update_chat_context sess.context "user" message now maxContextSize
          let ctx2 := replies.foldl
            (fun acc r => update_chat_context acc "chipper" r now maxContextSize) ctx1
          (.ok replies, { sess with context := ctx2 })

/-- An arbitrary empty session used as concrete input. -/
def emptySession : WebSession := { es_index := none, model_name := none, context := [] }

/-- Number of heartbeat frames in an SSE output prefix. -/
def countHeartbeats (l : List OutFrame) : Nat :=
  l.countP (fun f => f = .heartbeat)

/-- Number of queue-read timeouts in a queue observation prefix. -/
def countTimeouts (l : List QEvent) : Nat :=
  l.countP (fun e => e = .timeout)

/-- Concrete environment for exercising get_env_param: one parseable value,
one malformed value, one empty value. -/
def envC5 : Env := fun n =>
  if n = "P" then some "7"
  else if n = "Q" then some "x"
  else if n = "R" then some ""
  else none

/-- Environment with MIROSTAT unset but both dependent mirostat variables
set to valid float strings. -/
def envMiro : Env := fun n =>
  if n = "MIROSTAT_ETA" then some "0.1"
  else if n = "MIROSTAT_TAU" then some "5.0"
  else none

/-- Environment with MIROSTAT set to a string that fails int conversion,
and both dependent mirostat variables set to valid float strings. -/
def envMiroBad : Env := fun n =>
  if n = "MIROSTAT" then some "abc"
  else if n = "MIROSTAT_ETA" then some "0.1"
  else if n = "MIROSTAT_TAU" then some "5.0"
  else none

/-- A concrete factory configuration with a nonzero seed. -/
def cfgSeed7 : QueryPipelineConfigM :=
  { es_url := "http://es:9200", es_index := "docs", ollama_url := "http://ollama:11434",
    embedding_model := "nomic", allow_model_pull := true, model_name := "m",
    system_prompt := "", context_window := 8192, temperature := 7 / 10, seed := 7, top_k := 5 }

/-- A one-element conversation context. -/
def ctxA : List ConvRec := [⟨"user", "a", "t0"⟩]

theorem cfgGet_append (l1 l2 : List (String × ConfigVal)) (k : String) :
    cfgGet (l1 ++ l2) k = (cfgGet l1 k).orElse (fun _ => cfgGet l2 k) := by
  induction l1 with
  | nil => simp [cfgGet]
  | cons p rest ih =>
    obtain ⟨k2, v⟩ := p
    by_cases h : k2 = k <;> simp [cfgGet, h, ih]

theorem cfgGet_optEntry (key k : String) (v : Option ConfigVal) :
    cfgGet (optEntry key v) k = if key = k then v else none := by
  cases v with
  | none => simp [optEntry, cfgGet]
  | some x => simp [optEntry, cfgGet]

theorem mem_optEntry (key : String) (v : Option ConfigVal) (p : String × ConfigVal)
    (h : p ∈ optEntry key v) : p.1 = key := by
  cases v with
  | none => simp [optEntry] at h
  | some x => simp [optEntry] at h; rw [h]

theorem cfgGet_none_of_keys (l : List (String × ConfigVal)) (keys : List String) (k : String)
    (hl : ∀ p ∈ l, p.1 ∈ keys) (hk : k ∉ keys) : cfgGet l k = none := by
  induction l with
  | nil => rfl
  | cons p rest ih =>
    obtain ⟨k2, v⟩ := p
    have hp : k2 ∈ keys := hl (k2, v) (List.mem_cons_self _ _)
    have hne : k2 ≠ k := fun he => hk (he ▸ hp)
    simp only [cfgGet, if_neg hne]
    exact ih (fun q hq => hl q (List.mem_cons_of_mem _ hq))

theorem keys_headSegment (env : Env) (sp : String) (model : Option String) :
    ∀ p ∈ headSegment env sp model,
      p.1 ∈ ["provider", "embedding_model", "model_name", "system_prompt"] := by
  intro p hp
  simp [headSegment] at hp
  rcases hp with h | h | h | h <;> simp [h]

theorem keys_coreGenSegment (env : Env) :
    ∀ p ∈ coreGenSegment env,
      p.1 ∈ ["context_window", "temperature", "seed", "top_k", "top_p", "min_p"] := by
  intro p hp
  simp only [coreGenSegment, List.append_assoc, List.mem_append] at hp
  rcases hp with h | h | h | h | h | h <;> rw [mem_optEntry _ _ _ h] <;> simp

theorem keys_credSegment (env : Env) :
    ∀ p ∈ credSegment env, p.1 ∈ ["hf_api_key", "ollama_url"] := by
  intro p hp
  unfold credSegment at hp
  by_cases h : providerOf env = .huggingface
  · rw [if_pos h] at hp; rw [mem_optEntry _ _ _ hp]; simp
  · rw [if_neg h] at hp; rw [mem_optEntry _ _ _ hp]; simp

theorem keys_pullSegment (env : Env) :
    ∀ p ∈ pullSegment env, p.1 ∈ ["allow_model_pull"] := by
  intro p hp
  rw [mem_optEntry _ _ _ hp]
  simp

theorem keys_mirostatSegment (env : Env) :
    ∀ p ∈ mirostatSegment env, p.1 ∈ ["mirostat", "mirostat_eta", "mirostat_tau"] := by
  intro p hp
  unfold mirostatSegment at hp
  cases h : getEnvInt env "MIROSTAT" none with
  | none => rw [h] at hp; simp at hp
  | some m =>
    rw [h] at hp
    simp only [List.mem_cons, List.mem_append] at hp
    rcases hp with h1 | h1 | h1
    · rw [h1]; simp
    · rw [mem_optEntry _ _ _ h1]; simp
    · rw [mem_optEntry _ _ _ h1]; simp

theorem keys_repetitionSegment (env : Env) :
    ∀ p ∈ repetitionSegment env, p.1 ∈ ["repeat_last_n", "repeat_penalty"] := by
  intro p hp
  simp only [repetitionSegment, List.mem_append] at hp
  rcases hp with h | h <;> rw [mem_optEntry _ _ _ h] <;> simp

theorem keys_genCtrlSegment (env : Env) :
    ∀ p ∈ genCtrlSegment env, p.1 ∈ ["num_predict", "tfs_z", "stop_sequence"] := by
  intro p hp
  simp only [genCtrlSegment, List.append_assoc, List.mem_append] at hp
  rcases hp with h | h | h <;> rw [mem_optEntry _ _ _ h] <;> simp

theorem keys_esSegment (env : Env) (index : Option String) :
    ∀ p ∈ esSegment env index,
      p.1 ∈ ["es_url", "es_index", "es_top_k", "es_num_candidates",
             "es_basic_auth_user", "es_basic_auth_password"] := by
  intro p hp
  unfold esSegment at hp
  cases hu : env "ES_URL" with
  | none => rw [hu] at hp; simp at hp
  | some u =>
    rw [hu] at hp
    simp only [List.mem_cons, List.append_assoc, List.mem_append] at hp
    rcases hp with h1 | h1 | h1 | h1 | h1 | h1
    · rw [h1]; simp
    · cases index with
      | none => rw [mem_optEntry _ _ _ h1]; simp
      | some i => simp at h1; rw [h1]; simp
    · rw [mem_optEntry _ _ _ h1]; simp
    · rw [mem_optEntry _ _ _ h1]; simp
    · rw [mem_optEntry _ _ _ h1]; simp
    · rw [mem_optEntry _ _ _ h1]; simp

theorem keys_logsSegment (env : Env) :
    ∀ p ∈ logsSegment env, p.1 ∈ ["enable_conversation_logs"] := by
  intro p hp
  rw [mem_optEntry _ _ _ hp]
  simp

theorem cfgGet_config_hf_api_key (env : Env) (sp : String) (model index : Option String) :
    cfgGet (createPipelineConfig env sp model index) "hf_api_key" =
      if providerOf env = .huggingface then (env "HF_API_KEY").map ConfigVal.str else none := by
  have hHead := cfgGet_none_of_keys _ _ "hf_api_key" (keys_headSegment env sp model) (by decide)
  have hPull := cfgGet_none_of_keys _ _ "hf_api_key" (keys_pullSegment env) (by decide)
  have hCore := cfgGet_none_of_keys _ _ "hf_api_key" (keys_coreGenSegment env) (by decide)
  have hMiro := cfgGet_none_of_keys _ _ "hf_api_key" (keys_mirostatSegment env) (by decide)
  have hRep := cfgGet_none_of_keys _ _ "hf_api_key" (keys_repetitionSegment env) (by decide)
  have hGenc := cfgGet_none_of_keys _ _ "hf_api_key" (keys_genCtrlSegment env) (by decide)
  have hEs := cfgGet_none_of_keys _ _ "hf_api_key" (keys_esSegment env index) (by decide)
  have hLogs := cfgGet_none_of_keys _ _ "hf_api_key" (keys_logsSegment env) (by decide)
  unfold createPipelineConfig
  simp only [cfgGet_append, hHead, hPull, hCore, hMiro, hRep, hGenc, hEs, hLogs,
    Option.none_orElse, Option.orElse_none]
  by_cases hp : providerOf env = .huggingface
  · simp [credSegment, hp, cfgGet_optEntry]
  · simp [credSegment, hp, cfgGet_optEntry,
      show ("ollama_url" : String) ≠ "hf_api_key" from by decide]

theorem cfgGet_config_ollama_url (env : Env) (sp : String) (model index : Option String) :
    cfgGet (createPipelineConfig env sp model index) "ollama_url" =
      if providerOf env = .ollama then (env "OLLAMA_URL").map ConfigVal.str else none := by
  have hHead := cfgGet_none_of_keys _ _ "ollama_url" (keys_headSegment env sp model) (by decide)
  have hPull := cfgGet_none_of_keys _ _ "ollama_url" (keys_pullSegment env) (by decide)
  have hCore := cfgGet_none_of_keys _ _ "ollama_url" (keys_coreGenSegment env) (by decide)
  have hMiro := cfgGet_none_of_keys _ _ "ollama_url" (keys_mirostatSegment env) (by decide)
  have hRep := cfgGet_none_of_keys _ _ "ollama_url" (keys_repetitionSegment env) (by decide)
  have hGenc := cfgGet_none_of_keys _ _ "ollama_url" (keys_genCtrlSegment env) (by decide)
  have hEs := cfgGet_none_of_keys _ _ "ollama_url" (keys_esSegment env index) (by decide)
  have hLogs := cfgGet_none_of_keys _ _ "ollama_url" (keys_logsSegment env) (by decide)
  unfold createPipelineConfig
  simp only [cfgGet_append, hHead, hPull, hCore, hMiro, hRep, hGenc, hEs, hLogs,
    Option.none_orElse, Option.orElse_none]
  by_cases hp : providerOf env = .huggingface
  · have hpo : providerOf env ≠ .ollama := by rw [hp]; decide
    simp [credSegment, hp, hpo, cfgGet_optEntry,
      show ("hf_api_key" : String) ≠ "ollama_url" from by decide]
  · have hpo : providerOf env = .ollama := by
      cases h : providerOf env
      · rfl
      · exact absurd h hp
    simp [credSegment, hp, hpo, cfgGet_optEntry]

theorem cfgGet_config_provider (env : Env) (sp : String) (model index : Option String) :
    cfgGet (createPipelineConfig env sp model index) "provider" =
      some (.prov (providerOf env)) := by
  unfold createPipelineConfig headSegment
  simp [cfgGet_append, cfgGet]

theorem cfgGet_config_mirostat_eta (env : Env) (sp : String) (model index : Option String)
    (h : getEnvInt env "MIROSTAT" none = none) :
    cfgGet (createPipelineConfig env sp model index) "mirostat_eta" = none := by
  have hm : mirostatSegment env = [] := by unfold mirostatSegment; rw [h]
  have hHead := cfgGet_none_of_keys _ _ "mirostat_eta" (keys_headSegment env sp model) (by decide)
  have hCred := cfgGet_none_of_keys _ _ "mirostat_eta" (keys_credSegment env) (by decide)
  have hPull := cfgGet_none_of_keys _ _ "mirostat_eta" (keys_pullSegment env) (by decide)
  have hCore := cfgGet_none_of_keys _ _ "mirostat_eta" (keys_coreGenSegment env) (by decide)
  have hRep := cfgGet_none_of_keys _ _ "mirostat_eta" (keys_repetitionSegment env) (by decide)
  have hGenc := cfgGet_none_of_keys _ _ "mirostat_eta" (keys_genCtrlSegment env) (by decide)
  have hEs := cfgGet_none_of_keys _ _ "mirostat_eta" (keys_esSegment env index) (by decide)
  have hLogs := cfgGet_none_of_keys _ _ "mirostat_eta" (keys_logsSegment env) (by decide)
  unfold createPipelineConfig
  simp only [cfgGet_append, hm, hHead, hCred, hPull, hCore, hRep, hGenc, hEs, hLogs,
    Option.none_orElse, Option.orElse_none]
  rfl

theorem cfgGet_config_mirostat_tau (env : Env) (sp : String) (model index : Option String)
    (h : getEnvInt env "MIROSTAT" none = none) :
    cfgGet (createPipelineConfig env sp model index) "mirostat_tau" = none := by
  have hm : mirostatSegment env = [] := by unfold mirostatSegment; rw [h]
  have hHead := cfgGet_none_of_keys _ _ "mirostat_tau" (keys_headSegment env sp model) (by decide)
  have hCred := cfgGet_none_of_keys _ _ "mirostat_tau" (keys_credSegment env) (by decide)
  have hPull := cfgGet_none_of_keys _ _ "mirostat_tau" (keys_pullSegment env) (by decide)
  have hCore := cfgGet_none_of_keys _ _ "mirostat_tau" (keys_coreGenSegment env) (by decide)
  have hRep := cfgGet_none_of_keys _ _ "mirostat_tau" (keys_repetitionSegment env) (by decide)
  have hGenc := cfgGet_none_of_keys _ _ "mirostat_tau" (keys_genCtrlSegment env) (by decide)
  have hEs := cfgGet_none_of_keys _ _ "mirostat_tau" (keys_esSegment env index) (by decide)
  have hLogs := cfgGet_none_of_keys _ _ "mirostat_tau" (keys_logsSegment env) (by decide)
  unfold createPipelineConfig
  simp only [cfgGet_append, hm, hHead, hCred, hPull, hCore, hRep, hGenc, hEs, hLogs,
    Option.none_orElse, Option.orElse_none]
  rfl

theorem runGenerate_open_aux (evts : List QEvent) (h : ∀ e ∈ evts, isTerminalEvent e = false) :
    runGenerate evts = (evts.map openOut, false) := by
  induction evts with
  | nil => rfl
  | cons e rest ih =>
    have he := h e (List.mem_cons_self _ _)
    have hrest : ∀ x ∈ rest, isTerminalEvent x = false :=
      fun x hx => h x (List.mem_cons_of_mem _ hx)
    cases e with
    | timeout => simp [runGenerate, openOut, ih hrest]
    | malformed s => simp [isTerminalEvent] at he
    | frame o =>
      have hdone : isTrue (jGet o "done") = false := he
      simp [runGenerate, hdone, openOut, ih hrest]

theorem runGenerate_term_aux (pre : List QEvent) :
    ∀ (e : QEvent) (post : List QEvent), (∀ x ∈ pre, isTerminalEvent x = false) →
      isTerminalEvent e = true →
      runGenerate (pre ++ e :: post) = (pre.map openOut ++ termOut e, true) := by
  induction pre with
  | nil =>
    intro e post _ he
    cases e with
    | timeout => simp [isTerminalEvent] at he
    | malformed s => simp [runGenerate, termOut]
    | frame o =>
      have hdone : isTrue (jGet o "done") = true := he
      simp [runGenerate, hdone, termOut]
  | cons x rest ih =>
    intro e post h he
    have hx := h x (List.mem_cons_self _ _)
    have hrest : ∀ y ∈ rest, isTerminalEvent y = false :=
      fun y hy => h y (List.mem_cons_of_mem _ hy)
    have ih2 := ih e post hrest he
    cases x with
    | timeout => simp [runGenerate, openOut, ih2]
    | malformed s => simp [isTerminalEvent] at hx
    | frame o =>
      have hdone : isTrue (jGet o "done") = false := hx
      simp [runGenerate, hdone, openOut, ih2]

theorem count_map_openOut (evts : List QEvent) :
    countHeartbeats (evts.map openOut) = countTimeouts evts := by
  induction evts with
  | nil => rfl
  | cons e rest ih =>
    cases e <;>
      simp [countHeartbeats, countTimeouts, List.countP_cons, openOut] <;>
      simp [countHeartbeats, countTimeouts] at ih <;> omega

theorem heartbeat_count_aux (evts : List QEvent) (h : ∀ e ∈ evts, isTerminalEvent e = false) :
    countHeartbeats (runGenerate evts).1 = countTimeouts evts := by
  rw [runGenerate_open_aux evts h]
  exact count_map_openOut evts

/-- C1: a POST /api/chat body with a model override while ALLOW_MODEL_CHANGE
is false (or an index override while ALLOW_INDEX_CHANGE is false) makes the
handler's validation prefix raise the 403 Forbidden abort — before
create_pipeline_config runs and before any backend work (pipeline-config
count 0) — but the route's blanket `except Exception` catches werkzeug's
HTTPException and re-raises abort(500), so the client receives the generic
HTTP 500 response, not the 403 the claim (and the abort's own description)
intends. -/
theorem chat_override_rejection_swallowed_to_500 :
    chat_validate false true (some reqModelOverride) =
      .error ⟨403, "Model changes are not allowed"⟩
  ∧ chat false true emptyEnv "" (some reqModelOverride) =
      (.http 500 "Internal Server Error.", 0)
  ∧ chat_validate true false (some reqIndexOverride) =
      .error ⟨403, "Index changes are not allowed"⟩
  ∧ chat true false emptyEnv "" (some reqIndexOverride) =
      (.http 500 "Internal Server Error.", 0) := by decide

/-- C2 counterexample: in the empty environment the built configuration has
provider ollama yet populates neither hf_api_key nor ollama_url — so
"exactly one provider-specific credential is populated" fails, as does the
claimed equivalence (provider is ollama while ollama_url is absent). -/
theorem provider_credential_none_counterexample :
    cfgGet (createPipelineConfig emptyEnv "" none none) "provider" =
      some (.prov .ollama)
  ∧ cfgGet (createPipelineConfig emptyEnv "" none none) "hf_api_key" = none
  ∧ cfgGet (createPipelineConfig emptyEnv "" none none) "ollama_url" = none := by decide

/-- C2 (amended): at most one provider-specific credential is populated,
selected by provider — hf_api_key equals the HF_API_KEY variable when the
provider is huggingface and is absent otherwise, ollama_url equals the
OLLAMA_URL variable when the provider is ollama and is absent otherwise;
in particular the two are never populated together, but both may be absent
when the selected provider's variable is unset. -/
theorem provider_credential_selection (env : Env) (sp : String) (model index : Option String) :
    cfgGet (createPipelineConfig env sp model index) "provider" =
      some (.prov (providerOf env))
  ∧ cfgGet (createPipelineConfig env sp model index) "hf_api_key" =
      (if providerOf env = .huggingface then (env "HF_API_KEY").map ConfigVal.str else none)
  ∧ cfgGet (createPipelineConfig env sp model index) "ollama_url" =
      (if providerOf env = .ollama then (env "OLLAMA_URL").map ConfigVal.str else none)
  ∧ (cfgGet (createPipelineConfig env sp model index) "hf_api_key" = none
      ∨ cfgGet (createPipelineConfig env sp model index) "ollama_url" = none) := by
  refine ⟨cfgGet_config_provider env sp model index, cfgGet_config_hf_api_key env sp model index,
    cfgGet_config_ollama_url env sp model index, ?_⟩
  by_cases hp : providerOf env = .huggingface
  · right
    have hno : providerOf env ≠ .ollama := by rw [hp]; decide
    rw [cfgGet_config_ollama_url env sp model index, if_neg hno]
  · left
    rw [cfgGet_config_hf_api_key env sp model index, if_neg hp]

/-- C3: over any finite prefix of queue observations, the streaming
response generator stays open (emitting exactly one frame per observation,
a heartbeat for each timeout) while no terminal observation occurs, and
terminates exactly once, at the first observation that is either a frame
whose done field is the JSON boolean true or an item that fails JSON
parsing — everything queued after that point is never consumed. -/
theorem streaming_generate_termination :
    (∀ evts : List QEvent, (∀ e ∈ evts, isTerminalEvent e = false) →
      runGenerate evts = (evts.map openOut, false))
  ∧ (∀ (pre : List QEvent) (e : QEvent) (post : List QEvent),
      (∀ x ∈ pre, isTerminalEvent x = false) → isTerminalEvent e = true →
      runGenerate (pre ++ e :: post) = (pre.map openOut ++ termOut e, true))
  ∧ (∀ evts : List QEvent, (∀ e ∈ evts, isTerminalEvent e = false) →
      countHeartbeats (runGenerate evts).1 = countTimeouts evts) :=
  ⟨runGenerate_open_aux, runGenerate_term_aux, heartbeat_count_aux⟩

/-- Witness for C3 at a concrete observation sequence: a timeout, a token
chunk, the final done frame, and a queued item after it; the loop emits one
heartbeat, both frames, and stops at the done frame. -/
theorem streaming_generate_termination_witness :
    runGenerate [.timeout, .frame (streamingChunkFrame "first"),
        .frame (finalFrame (.other 0)), .timeout] =
      ([.heartbeat, .data (streamingChunkFrame "first"), .data (finalFrame (.other 0))], true) :=
  streaming_generate_termination.2.1 [.timeout, .frame (streamingChunkFrame "first")]
    (.frame (finalFrame (.other 0))) [.timeout] (by decide) (by decide)

/-- C4 counterexample: the done:true error frames built in run_rag's
exception handlers carry only type, chunk and done — the full_response
field of the claimed four-field shape is missing, and the invalid-JSON
error frame has a different shape altogether. -/
theorem chat_frame_fields_counterexample :
    hasAllChatFields (badRequestErrorFrame "boom") = false
  ∧ hasAllChatFields (genericErrorFrame "boom") = false
  ∧ (runRagFrames [] [] (.badRequest "boom")).all hasAllChatFields = false
  ∧ hasAllChatFields invalidJsonErrorFrame = false := by decide

/-- C4 (amended): token-chunk frames, model-status frames and the final
frame all carry the four fields type/chunk/done/full_response, but the
done:true error frames emitted on pipeline exceptions carry only
type/chunk/done (no full_response), and the defensive invalid-JSON frame
has keys type/error/done. -/
theorem chat_frame_fields_amended :
    (∀ statusMsgs chunks : List String, ∀ r : JVal,
      (runRagFrames statusMsgs chunks (.ok r)).all hasAllChatFields = true)
  ∧ (∀ e, frameKeys (badRequestErrorFrame e) = ["type", "chunk", "done"])
  ∧ (∀ e, frameKeys (genericErrorFrame e) = ["type", "chunk", "done"])
  ∧ frameKeys invalidJsonErrorFrame = ["type", "error", "done"] := by
  refine ⟨?_, fun e => rfl, fun e => rfl, rfl⟩
  intro statusMsgs chunks r
  simp only [runRagFrames, List.all_append, Bool.and_eq_true]
  refine ⟨⟨?_, ?_⟩, ?_⟩
  · apply List.all_eq_true.mpr
    intro x hx
    obtain ⟨s, hs, rfl⟩ := List.mem_map.mp hx
    rfl
  · apply List.all_eq_true.mpr
    intro x hx
    obtain ⟨c, hc, rfl⟩ := List.mem_map.mp hx
    rfl
  · rfl

/-- C5: get_env_param returns None when the variable is absent; applies the
converter to the default string when the raw value is empty and a default
is given; and for a non-empty raw value returns exactly what the converter
yields — None on conversion failure, the converted value otherwise — never
raising (the model is a total function). -/
theorem get_env_param_behavior {A : Type} (env : Env) (name : String)
    (conv : String → Option A) (d v : String) :
    (env name = none → ∀ default, get_env_param env name conv default = none)
  ∧ (env name = some "" → get_env_param env name conv (some d) = conv d)
  ∧ (env name = some v → v ≠ "" → ∀ default, get_env_param env name conv default = conv v) := by
  refine ⟨?_, ?_, ?_⟩
  · intro h default; simp [get_env_param, h]
  · intro h; simp [get_env_param, h]
  · intro h hv default
    cases default with
    | none => simp [get_env_param, h]
    | some d2 => simp [get_env_param, h, hv]

/-- Witness for C5 with the int converter: an absent variable, an empty
value falling back to the default "3", a malformed value "x" converting to
None, and a well-formed value "7". -/
theorem get_env_param_behavior_witness :
    get_env_param envC5 "ABSENT" pyInt? (some "3") = none
  ∧ get_env_param envC5 "R" pyInt? (some "3") = some 3
  ∧ get_env_param envC5 "Q" pyInt? none = none
  ∧ get_env_param envC5 "P" pyInt? none = some 7 :=
  ⟨(get_env_param_behavior envC5 "ABSENT" pyInt? "3" "").1 (by decide) (some "3"),
   ((get_env_param_behavior envC5 "R" pyInt? "3" "").2.1 (by decide)).trans (by decide),
   ((get_env_param_behavior envC5 "Q" pyInt? "3" "x").2.2 (by decide) (by decide) none).trans
     (by decide),
   ((get_env_param_behavior envC5 "P" pyInt? "3" "7").2.2 (by decide) (by decide) none).trans
     (by decide)⟩

/-- C6: whenever MIROSTAT is unset or fails int conversion (both give
getEnvInt ... none), the built configuration contains neither mirostat_eta
nor mirostat_tau, whatever the MIROSTAT_ETA and MIROSTAT_TAU variables
hold. -/
theorem mirostat_deps_absent (env : Env) (sp : String) (model index : Option String)
    (h : getEnvInt env "MIROSTAT" none = none) :
    cfgGet (createPipelineConfig env sp model index) "mirostat_eta" = none
  ∧ cfgGet (createPipelineConfig env sp model index) "mirostat_tau" = none :=
  ⟨cfgGet_config_mirostat_eta env sp model index h,
   cfgGet_config_mirostat_tau env sp model index h⟩

/-- Witness for C6: MIROSTAT_ETA = "0.1" and MIROSTAT_TAU = "5.0" are valid
float strings, yet with MIROSTAT unset (envMiro) or set to the
unconvertible "abc" (envMiroBad), both dependent keys are absent from the
built configuration. -/
theorem mirostat_deps_absent_witness :
    (pyFloatOk "0.1" = true ∧ pyFloatOk "5.0" = true)
  ∧ (cfgGet (createPipelineConfig envMiro "" none none) "mirostat_eta" = none
      ∧ cfgGet (createPipelineConfig envMiro "" none none) "mirostat_tau" = none)
  ∧ (cfgGet (createPipelineConfig envMiroBad "" none none) "mirostat_eta" = none
      ∧ cfgGet (createPipelineConfig envMiroBad "" none none) "mirostat_tau" = none) :=
  ⟨by decide, mirostat_deps_absent envMiro "" none none (by decide),
   mirostat_deps_absent envMiroBad "" none none (by decide)⟩

/-- C7: when the pipeline raises, the legacy query endpoint answers
success:false with result null and the caller's conversation unchanged;
when it succeeds (well-formed result with a first reply), the response is
success:true and the conversation extended by exactly one user record and
one assistant record, each stamped with the current time. -/
theorem process_query_conversation :
    (∀ (q : String) (conv : List ConvRec) (now : String),
      process_query q conv .err now = some ⟨false, none, conv, now⟩)
  ∧ (∀ (q : String) (conv : List ConvRec) (now r0 : String) (rest : List String),
      process_query q conv (.ok (r0 :: rest)) now =
        some ⟨true, some (r0 :: rest),
          conv ++ [⟨"user", q, now⟩, ⟨"assistant", r0, now⟩], now⟩) := by
  constructor
  · intro q conv now; simp [process_query]
  · intro q conv now r0 rest; rfl

/-- C8 counterexample: with max_context_size = 0 and a non-empty context,
the update never trims — Python's slice [-0:] is the whole list — so the
stored length is 2, not the bound 0 the claim requires. -/
theorem update_chat_context_zero_counterexample :
    ctxA.length > 0
  ∧ update_chat_context ctxA "user" "b" "t1" 0 =
      [⟨"user", "a", "t0"⟩, ⟨"user", "b", "t1"⟩]
  ∧ (update_chat_context ctxA "user" "b" "t1" 0).length ≠ 0 := by decide

/-- C8 (amended): for a positive max_context_size smaller than the stored
context length, the update stores exactly max_context_size records, namely
the suffix of most recent entries (including the new one) in original
order. -/
theorem update_chat_context_trims (context : List ConvRec) (role content now : String)
    (maxSize : Nat) (h0 : 0 < maxSize) (h : maxSize < context.length) :
    (update_chat_context context role content now maxSize).length = maxSize
  ∧ update_chat_context context role content now maxSize =
      (context ++ [(⟨role, content, now⟩ : ConvRec)]).drop (context.length + 1 - maxSize) := by
  have hlen : (context ++ [(⟨role, content, now⟩ : ConvRec)]).length = context.length + 1 := by
    simp
  have hgt : (context ++ [(⟨role, content, now⟩ : ConvRec)]).length > maxSize := by omega
  have hne : maxSize ≠ 0 := by omega
  simp only [update_chat_context, pyTailSlice]
  rw [if_pos hgt, if_neg hne, hlen]
  constructor
  · rw [List.length_drop, hlen]; omega
  · rfl

/-- Witness for C8 (amended): a three-record context trimmed to bound 2
keeps the two most recent records in order. -/
theorem update_chat_context_trims_witness :
    (update_chat_context [⟨"user", "a", "t0"⟩, ⟨"chipper", "b", "t1"⟩, ⟨"user", "c", "t2"⟩]
        "user" "d" "t3" 2).length = 2
  ∧ update_chat_context [⟨"user", "a", "t0"⟩, ⟨"chipper", "b", "t1"⟩, ⟨"user", "c", "t2"⟩]
        "user" "d" "t3" 2 = [⟨"user", "c", "t2"⟩, ⟨"user", "d", "t3"⟩] :=
  have h := update_chat_context_trims
    [⟨"user", "a", "t0"⟩, ⟨"chipper", "b", "t1"⟩, ⟨"user", "c", "t2"⟩]
    "user" "d" "t3" 2 (by decide) (by decide)
  ⟨h.1, h.2.trans (by decide)⟩

/-- C9: the factory's generator always carries a 240-second timeout and
generation kwargs holding the configuration's temperature and its
context_window under the context_length key, and a seed entry exactly when
the configured seed is nonzero (then equal to it). -/
theorem create_ollama_generator_spec (config : QueryPipelineConfigM) :
    (create_ollama_generator config).timeout = 240
  ∧ kwGet (create_ollama_generator config).generation_kwargs "temperature" =
      some (.rat config.temperature)
  ∧ kwGet (create_ollama_generator config).generation_kwargs "context_length" =
      some (.int config.context_window)
  ∧ ((kwGet (create_ollama_generator config).generation_kwargs "seed").isSome ↔
      config.seed ≠ 0)
  ∧ (config.seed ≠ 0 →
      kwGet (create_ollama_generator config).generation_kwargs "seed" =
        some (.int config.seed)) := by
  by_cases h : config.seed = 0
  · have hk : (create_ollama_generator config).generation_kwargs =
        [("temperature", .rat config.temperature),
         ("context_length", .int config.context_window)] := by
      simp [create_ollama_generator, if_neg (show ¬(config.seed ≠ 0) from fun hn => hn h)]
    refine ⟨rfl, ?_, ?_, ?_, fun hn => absurd h hn⟩
    · rw [hk]; rfl
    · rw [hk]; rfl
    · rw [hk]
      constructor
      · intro hs; exact Bool.noConfusion hs
      · intro hn; exact absurd h hn
  · have hk : (create_ollama_generator config).generation_kwargs =
        [("temperature", .rat config.temperature),
         ("context_length", .int config.context_window),
         ("seed", .int config.seed)] := by
      simp [create_ollama_generator, if_pos h]
    refine ⟨rfl, ?_, ?_, ?_, fun _ => ?_⟩
    · rw [hk]; rfl
    · rw [hk]; rfl
    · rw [hk]; exact ⟨fun _ => h, fun _ => rfl⟩
    · rw [hk]; rfl

/-- Witness for C9 at a configuration with seed 7: the seed entry is
forwarded. -/
theorem create_ollama_generator_spec_witness :
    kwGet (create_ollama_generator cfgSeed7).generation_kwargs "seed" = some (.int 7) :=
  (create_ollama_generator_spec cfgSeed7).2.2.2.2 (by decide)

/-- C10: '/set_index' and '/set_model' are not registered in the command
table, so the no-argument branches of handle_set_index and handle_set_model
raise KeyError instead of returning the structured usage-error dictionary,
and the web frontend's POST /api/chat route answers '/index' and '/model'
(without arguments) with its generic 500 unexpected-error response rather
than the 400 a structured command error would produce. -/
theorem slash_command_no_arg_keyerror_500 :
    cmdGet commands "/set_index" = none
  ∧ cmdGet commands "/set_model" = none
  ∧ handle_set_index [] emptySession = .error (.keyError "/set_index")
  ∧ handle_set_model [] emptySession = .error (.keyError "/set_model")
  ∧ webChat "/index" emptySession true (.ok ["reply"]) 20 "t0" = (.unexpected, emptySession)
  ∧ webChat "/model" emptySession true (.ok ["reply"]) 20 "t0" = (.unexpected, emptySession)
  ∧ webChatStatus .unexpected = 500
  ∧ webChatStatus (.commandError "Index name is required" "/index <index_name>") = 400 := by
  decide
